import Mathlib

/-!
Verification development for the RTL-dictionary lookup CLI
(src/check_rtl_meaning.py).

The program is a straight-line command-line tool: it parses up to four
optional switches, reads a two-section JSON dictionary from a file
(falling back to a built-in default when the content cannot be parsed),
performs exact-match lookups for a requested prefix or a requested
suffix, and optionally lists the whole dictionary.

Shallow embedding conventions:
  - A Python dict is modelled as an association list whose keys are
    unique; `List.lookup` is Python key indexing / the `in` test.
  - The JSON file system is a function from paths to `FileContent`:
    `absent` means `open` raises (file missing), `present none` means
    the file opened but `json.load` failed (empty or malformed content),
    `present (some d)` means `json.load` produced the object `d`.
  - Each `print` call is recorded as one tagged `Msg`; `render` maps a
    tag to the exact text the Python program writes.
  - A run ends in `RunOutcome.normal` (the script reaches `exit()`,
    process exit code 0), `RunOutcome.aborted` (an uncaught exception
    after the listed output), or `RunOutcome.usageError` (argparse
    rejected the command line, exit code 2).
-/

/-- One section of the dictionary: an insertion-ordered mapping from a
prefix or suffix string to its explanation string. -/
abbrev DictSection := List (String × String)

/-- A parsed top-level JSON object: an insertion-ordered mapping from a
top-level key (expected: "Prefixes", "Suffixes") to a section. -/
abbrev Dict := List (String × DictSection)

/-- Result of opening and parsing the dictionary file at some path. -/
inductive FileContent where
  | absent : FileContent
  | present : Option Dict → FileContent
deriving DecidableEq

/-- `errorTag` of check_rtl_meaning.py (line 31). -/
def errorTag : String := "\t***Error: "

/-- `successTag` of check_rtl_meaning.py (line 32); never used by the main flow. -/
def successTag : String := "\t***Success: "

/-- `infoTag` of check_rtl_meaning.py (line 33). -/
def infoTag : String := "\t***Info: "

/-- `noArgsMsg` (line 57). -/
def noArgsMsg : String := errorTag ++ "No input arguments were specified."

/-- `fileReadAttemptMsg` (line 59) with its placeholder substituted. -/
def fileReadAttemptMsg (path : String) : String :=
  infoTag ++ "Trying to read in " ++ path

/-- `fileEmptyMsg` (line 61) with its placeholder substituted. -/
def fileEmptyMsg (path : String) : String :=
  infoTag ++ "The file at " ++ path ++ " is empty... creating the dictionary from scratch"

/-- `unsupportedScriptUsageMsg` (line 63): defined by the script but never printed. -/
def unsupportedScriptUsageMsg : String :=
  errorTag ++ "Only one switch (--prefix, --suffix, or --list_all) should be supplied at a time"

/-- `prefixSuffixNotFoundMsg` (line 65) with its placeholders substituted. -/
def prefixSuffixNotFoundMsg (kind value fname : String) : String :=
  infoTag ++ "The " ++ kind ++ " " ++ value ++ " could not be found in " ++ fname

/-- `explanationMsg` (line 67) with its placeholders substituted. -/
def explanationMsg (key expl : String) : String := key ++ ": " ++ expl

/-- `prefixSectionHeader` (lines 69-71): 39 equals signs, the word
Prefixes indented by 12 spaces, 39 equals signs, a blank line. -/
def prefixSectionHeader : String :=
  "=======================================\n            Prefixes\n=======================================\n\n"

/-- `suffixSectionHeader` (lines 73-75). -/
def suffixSectionHeader : String :=
  "\n=======================================\n            Suffixes\n=======================================\n\n"

/-- The default dictionary built inside `readInDictionary` (lines 98-107)
when `json.load` fails. -/
def defaultDictionary : Dict :=
  [("Prefixes",
     [("aref_", "Indicates that the signal is to do with the auto-refresh logic."),
      ("mmu_", "Indicates that the signal is coming from the memory-management unit.")]),
   ("Suffixes",
     [("_req", "Indicates a request line."),
      ("_ctrl", "Indicates a control signal or a signal from a control block.")])]

/-- Exceptions that the main flow can raise and never catches. -/
inductive RunError where
  | fileNotFound : String → RunError
  | keyError : String → RunError
deriving DecidableEq

/-- One `print` event of the script, tagged by which message template the
call site uses; `render` recovers the printed text. -/
inductive Msg where
  | noArgs : Msg
  | fileReadAttempt : String → Msg
  | fileEmpty : String → Msg
  | explanation : String → String → Msg
  | notFound : String → String → String → Msg
  | listing : String → Msg
  | unsupportedUsage : Msg
deriving DecidableEq

/-- The exact text a tagged message prints. -/
def render : Msg → String
  | Msg.noArgs => noArgsMsg
  | Msg.fileReadAttempt p => fileReadAttemptMsg p
  | Msg.fileEmpty p => fileEmptyMsg p
  | Msg.explanation k e => explanationMsg k e
  | Msg.notFound kind v f => prefixSuffixNotFoundMsg kind v f
  | Msg.listing s => s
  | Msg.unsupportedUsage => unsupportedScriptUsageMsg

/-- `readInDictionary` (lines 91-108): open the file at the path; on a
missing file the `open` raises and propagates; otherwise print the
read-attempt message, and either return the parsed object or, when
`json.load` raises (empty or malformed content), print the empty-file
message and return the built-in default dictionary. The result pairs the
printed messages with the returned dictionary. -/
def readInDictionary (fs : String → FileContent) (pathToFile : String) :
    Except RunError (List Msg × Dict) :=
  match fs pathToFile with
  | FileContent.absent => Except.error (RunError.fileNotFound pathToFile)
  | FileContent.present (some d) => Except.ok ([Msg.fileReadAttempt pathToFile], d)
  | FileContent.present none =>
      Except.ok ([Msg.fileReadAttempt pathToFile, Msg.fileEmpty pathToFile], defaultDictionary)

/-- The parsed argparse result (lines 79-89): `--prefix` and `--suffix`
and `--path_to_dict` store an optional string (`none` when the switch is
absent); `--list_all` stores a boolean. -/
structure Args where
  prefixArg : Option String
  suffixArg : Option String
  list_all : Bool
  path_to_dict : Option String
deriving DecidableEq

/-- Python truthiness of an optional string: `None` and the empty string
are falsy, every other string is truthy (the `if args.prefix:` tests,
lines 126, 132, 138). -/
def truthy : Option String → Bool
  | none => false
  | some s => !(s == "")

/-- `fileName` (line 142). -/
def fileName : String := "rtl_dictionary.json"

/-- Path handed to `readInDictionary` (lines 136-150): the value of
`--path_to_dict` when that value is truthy, otherwise "./", concatenated
directly with the fixed file name. -/
def computedPath (args : Args) : String :=
  (if truthy args.path_to_dict then args.path_to_dict.getD "" else "./") ++ fileName

/-- One lookup branch of the main flow (lines 153-159 for the prefix,
160-166 for the suffix): when the corresponding switch is truthy, index
the dictionary at the section key (an uncaught KeyError when the section
is missing), then print either the explanation or the not-found message. -/
def lookupBranch (flag : Bool) (value : Option String) (kind sectionKey fname : String)
    (dict : Dict) : Except RunError (List Msg) :=
  if flag then
    match dict.lookup sectionKey with
    | none => Except.error (RunError.keyError sectionKey)
    | some entries =>
        match entries.lookup (value.getD "") with
        | some expl => Except.ok [Msg.explanation (value.getD "") expl]
        | none => Except.ok [Msg.notFound kind (value.getD "") fname]
  else Except.ok []

/-- The loop body of the listing branch (lines 172-173 and 178-179):
append "key: value" lines to the accumulated output string. -/
def listEntries (acc : String) : DictSection → String
  | [] => acc
  | (k, v) :: rest => listEntries (acc ++ k ++ ": " ++ v ++ "\n") rest

/-- The listing branch (lines 167-182): when `--list_all` was supplied,
extract both sections (an uncaught KeyError when one is missing), build
one combined string - prefix header, prefix entries, suffix header,
suffix entries - and print it once. -/
def listAllBranch (flag : Bool) (dict : Dict) : Except RunError (List Msg) :=
  if flag then
    match dict.lookup "Prefixes" with
    | none => Except.error (RunError.keyError "Prefixes")
    | some prefixList =>
        match dict.lookup "Suffixes" with
        | none => Except.error (RunError.keyError "Suffixes")
        | some suffixList =>
            Except.ok [Msg.listing
              (listEntries (listEntries prefixSectionHeader prefixList ++ suffixSectionHeader)
                suffixList)]
  else Except.ok []

/-- Outcome of one process run. -/
inductive RunOutcome where
  | normal : List Msg → RunOutcome
  | aborted : List Msg → RunError → RunOutcome
  | usageError : RunOutcome
deriving DecidableEq

/-- The messages a run printed to stdout before terminating. -/
def outputOf : RunOutcome → List Msg
  | RunOutcome.normal out => out
  | RunOutcome.aborted out _ => out
  | RunOutcome.usageError => []

/-- The process exit code of a run: 0 for a run reaching `exit()`, 1 for
an uncaught exception, 2 for an argparse usage error. -/
def exitCode : RunOutcome → Nat
  | RunOutcome.normal _ => 0
  | RunOutcome.aborted _ _ => 1
  | RunOutcome.usageError => 2

/-- The `__main__` flow after argument parsing (lines 117-183): compute
the switch truthiness flags and the file path, read the dictionary
(aborting when the open fails), then run the prefix branch, the suffix
branch and the listing branch in that order against the same dictionary,
accumulating output and aborting at the first uncaught exception. -/
def mainWithArgs (fs : String → FileContent) (args : Args) : RunOutcome :=
  match readInDictionary fs (computedPath args) with
  | Except.error e => RunOutcome.aborted [] e
  | Except.ok (out0, rtlDictionary) =>
    match lookupBranch (truthy args.prefixArg) args.prefixArg "prefix" "Prefixes" fileName
        rtlDictionary with
    | Except.error e => RunOutcome.aborted out0 e
    | Except.ok out1 =>
      match lookupBranch (truthy args.suffixArg) args.suffixArg "suffix" "Suffixes" fileName
          rtlDictionary with
      | Except.error e => RunOutcome.aborted (out0 ++ out1) e
      | Except.ok out2 =>
        match listAllBranch args.list_all rtlDictionary with
        | Except.error e => RunOutcome.aborted (out0 ++ out1 ++ out2) e
        | Except.ok out3 => RunOutcome.normal (out0 ++ out1 ++ out2 ++ out3)

/-- Command-line tokenizer for the four supported switches, modelling the
argparse configuration of `parsingArguments` (lines 79-89) on well-formed
token lists; any other token makes argparse print usage and exit. -/
def parseTokens : List String → Args → Option Args
  | [], acc => some acc
  | "--list_all" :: rest, acc =>
      parseTokens rest (Args.mk acc.prefixArg acc.suffixArg true acc.path_to_dict)
  | "--prefix" :: v :: rest, acc =>
      parseTokens rest (Args.mk (some v) acc.suffixArg acc.list_all acc.path_to_dict)
  | "--suffix" :: v :: rest, acc =>
      parseTokens rest (Args.mk acc.prefixArg (some v) acc.list_all acc.path_to_dict)
  | "--path_to_dict" :: v :: rest, acc =>
      parseTokens rest (Args.mk acc.prefixArg acc.suffixArg acc.list_all (some v))
  | _, _ => none

/-- `parsingArguments` (lines 79-89): every switch defaults to absent. -/
def parsingArguments (argv : List String) : Option Args :=
  parseTokens argv (Args.mk none none false none)

/-- The whole `__main__` block (lines 110-183): `argv` is `sys.argv`
without the script name. With no arguments at all, print the no-arguments
message and exit normally before any file access; otherwise parse the
arguments and run the main flow. -/
def runMain (fs : String → FileContent) (argv : List String) : RunOutcome :=
  if argv.isEmpty then RunOutcome.normal [Msg.noArgs]
  else
    match parsingArguments argv with
    | none => RunOutcome.usageError
    | some args => mainWithArgs fs args

/-- The text the listing loop produces for a section: one "key: value"
line per entry, in section order. -/
def entriesText : DictSection → String
  | [] => ""
  | (k, v) :: rest => k ++ ": " ++ v ++ "\n" ++ entriesText rest

/-- The message a truthy lookup prints for a key against a section: the
explanation when the key is present, the not-found message otherwise. -/
def lookupResultMsg (entries : DictSection) (kind key : String) : Msg :=
  match entries.lookup key with
  | some expl => Msg.explanation key expl
  | none => Msg.notFound kind key fileName

theorem listEntries_eq (l : DictSection) (acc : String) :
    listEntries acc l = acc ++ entriesText l := by
  induction l generalizing acc with
  | nil => simp [listEntries, entriesText, String.append_empty]
  | cons kv rest ih =>
    cases kv with
    | mk k v => simp [listEntries, entriesText, ih, String.append_assoc]

theorem truthy_of_ne (v : String) (hv : v ≠ "") : truthy (some v) = true := by
  simp [truthy, hv]

theorem readInDictionary_parsed (fs : String → FileContent) (p : String) (D : Dict)
    (h : fs p = FileContent.present (some D)) :
    readInDictionary fs p = Except.ok ([Msg.fileReadAttempt p], D) := by
  simp [readInDictionary, h]

theorem readInDictionary_failedParse (fs : String → FileContent) (p : String)
    (h : fs p = FileContent.present none) :
    readInDictionary fs p =
      Except.ok ([Msg.fileReadAttempt p, Msg.fileEmpty p], defaultDictionary) := by
  simp [readInDictionary, h]

theorem readInDictionary_absent (fs : String → FileContent) (p : String)
    (h : fs p = FileContent.absent) :
    readInDictionary fs p = Except.error (RunError.fileNotFound p) := by
  simp [readInDictionary, h]

theorem lookupBranch_false (value : Option String) (kind sectionKey fname : String)
    (dict : Dict) : lookupBranch false value kind sectionKey fname dict = Except.ok [] := rfl

theorem lookupBranch_found (value : String) (hv : value ≠ "") (kind sectionKey fname : String)
    (dict : Dict) (entries : DictSection) (expl : String)
    (hsec : dict.lookup sectionKey = some entries)
    (hkey : entries.lookup value = some expl) :
    lookupBranch (truthy (some value)) (some value) kind sectionKey fname dict =
      Except.ok [Msg.explanation value expl] := by
  rw [truthy_of_ne value hv]
  simp [lookupBranch, hsec, hkey]

theorem lookupBranch_not_found (value : String) (hv : value ≠ "")
    (kind sectionKey fname : String) (dict : Dict) (entries : DictSection)
    (hsec : dict.lookup sectionKey = some entries)
    (hkey : entries.lookup value = none) :
    lookupBranch (truthy (some value)) (some value) kind sectionKey fname dict =
      Except.ok [Msg.notFound kind value fname] := by
  rw [truthy_of_ne value hv]
  simp [lookupBranch, hsec, hkey]

theorem lookupBranch_missing (value : String) (hv : value ≠ "")
    (kind sectionKey fname : String) (dict : Dict)
    (hsec : dict.lookup sectionKey = none) :
    lookupBranch (truthy (some value)) (some value) kind sectionKey fname dict =
      Except.error (RunError.keyError sectionKey) := by
  rw [truthy_of_ne value hv]
  simp [lookupBranch, hsec]

theorem lookupBranch_exists_ok (flag : Bool) (value : Option String)
    (kind sectionKey fname : String) (dict : Dict) (entries : DictSection)
    (hsec : dict.lookup sectionKey = some entries) :
    ∃ out, lookupBranch flag value kind sectionKey fname dict = Except.ok out := by
  cases flag with
  | false => exact ⟨[], rfl⟩
  | true =>
    cases hkey : entries.lookup (value.getD "") with
    | some expl =>
      exact ⟨[Msg.explanation (value.getD "") expl], by simp [lookupBranch, hsec, hkey]⟩
    | none =>
      exact ⟨[Msg.notFound kind (value.getD "") fname], by simp [lookupBranch, hsec, hkey]⟩

theorem lookupBranch_no_usage (flag : Bool) (value : Option String)
    (kind sectionKey fname : String) (dict : Dict) (out : List Msg)
    (h : lookupBranch flag value kind sectionKey fname dict = Except.ok out) :
    Msg.unsupportedUsage ∉ out := by
  cases flag with
  | false =>
    simp [lookupBranch] at h
    subst h
    simp
  | true =>
    cases hsec : dict.lookup sectionKey with
    | none => simp [lookupBranch, hsec] at h
    | some entries =>
      cases hkey : entries.lookup (value.getD "") with
      | some expl => simp [lookupBranch, hsec, hkey] at h; subst h; simp
      | none => simp [lookupBranch, hsec, hkey] at h; subst h; simp

theorem listAllBranch_false (dict : Dict) : listAllBranch false dict = Except.ok [] := rfl

theorem listAllBranch_ok (dict : Dict) (ps ss : DictSection)
    (hps : dict.lookup "Prefixes" = some ps) (hss : dict.lookup "Suffixes" = some ss) :
    listAllBranch true dict = Except.ok [Msg.listing
      (prefixSectionHeader ++ entriesText ps ++ suffixSectionHeader ++ entriesText ss)] := by
  simp [listAllBranch, hps, hss, listEntries_eq, String.append_assoc]

theorem listAllBranch_missingP (dict : Dict) (hps : dict.lookup "Prefixes" = none) :
    listAllBranch true dict = Except.error (RunError.keyError "Prefixes") := by
  simp [listAllBranch, hps]

theorem listAllBranch_missingS (dict : Dict) (ps : DictSection)
    (hps : dict.lookup "Prefixes" = some ps) (hss : dict.lookup "Suffixes" = none) :
    listAllBranch true dict = Except.error (RunError.keyError "Suffixes") := by
  simp [listAllBranch, hps, hss]

theorem listAllBranch_no_usage (flag : Bool) (dict : Dict) (out : List Msg)
    (h : listAllBranch flag dict = Except.ok out) :
    Msg.unsupportedUsage ∉ out := by
  cases flag with
  | false =>
    simp [listAllBranch] at h
    subst h
    simp
  | true =>
    cases hps : dict.lookup "Prefixes" with
    | none => simp [listAllBranch, hps] at h
    | some ps =>
      cases hss : dict.lookup "Suffixes" with
      | none => simp [listAllBranch, hps, hss] at h
      | some ss => simp [listAllBranch, hps, hss] at h; subst h; simp

theorem readInDictionary_no_usage (fs : String → FileContent) (p : String)
    (out : List Msg) (D : Dict)
    (h : readInDictionary fs p = Except.ok (out, D)) :
    Msg.unsupportedUsage ∉ out := by
  cases hc : fs p with
  | absent => simp [readInDictionary, hc] at h
  | present parsed =>
    cases parsed with
    | none =>
      simp [readInDictionary, hc] at h
      obtain ⟨h1, h2⟩ := h
      subst h1
      simp
    | some d =>
      simp [readInDictionary, hc] at h
      obtain ⟨h1, h2⟩ := h
      subst h1
      simp

theorem mainWithArgs_eq (fs : String → FileContent) (args : Args) (out0 : List Msg)
    (D : Dict) (o1 o2 o3 : List Msg)
    (hread : readInDictionary fs (computedPath args) = Except.ok (out0, D))
    (h1 : lookupBranch (truthy args.prefixArg) args.prefixArg "prefix" "Prefixes" fileName D
            = Except.ok o1)
    (h2 : lookupBranch (truthy args.suffixArg) args.suffixArg "suffix" "Suffixes" fileName D
            = Except.ok o2)
    (h3 : listAllBranch args.list_all D = Except.ok o3) :
    mainWithArgs fs args = RunOutcome.normal (out0 ++ o1 ++ o2 ++ o3) := by
  simp [mainWithArgs, hread, h1, h2, h3]

theorem mainWithArgs_abort_read (fs : String → FileContent) (args : Args) (e : RunError)
    (hread : readInDictionary fs (computedPath args) = Except.error e) :
    mainWithArgs fs args = RunOutcome.aborted [] e := by
  simp [mainWithArgs, hread]

theorem mainWithArgs_abort1 (fs : String → FileContent) (args : Args) (out0 : List Msg)
    (D : Dict) (e : RunError)
    (hread : readInDictionary fs (computedPath args) = Except.ok (out0, D))
    (h1 : lookupBranch (truthy args.prefixArg) args.prefixArg "prefix" "Prefixes" fileName D
            = Except.error e) :
    mainWithArgs fs args = RunOutcome.aborted out0 e := by
  simp [mainWithArgs, hread, h1]

theorem mainWithArgs_abort2 (fs : String → FileContent) (args : Args) (out0 : List Msg)
    (D : Dict) (o1 : List Msg) (e : RunError)
    (hread : readInDictionary fs (computedPath args) = Except.ok (out0, D))
    (h1 : lookupBranch (truthy args.prefixArg) args.prefixArg "prefix" "Prefixes" fileName D
            = Except.ok o1)
    (h2 : lookupBranch (truthy args.suffixArg) args.suffixArg "suffix" "Suffixes" fileName D
            = Except.error e) :
    mainWithArgs fs args = RunOutcome.aborted (out0 ++ o1) e := by
  simp [mainWithArgs, hread, h1, h2]

theorem mainWithArgs_abort3 (fs : String → FileContent) (args : Args) (out0 : List Msg)
    (D : Dict) (o1 o2 : List Msg) (e : RunError)
    (hread : readInDictionary fs (computedPath args) = Except.ok (out0, D))
    (h1 : lookupBranch (truthy args.prefixArg) args.prefixArg "prefix" "Prefixes" fileName D
            = Except.ok o1)
    (h2 : lookupBranch (truthy args.suffixArg) args.suffixArg "suffix" "Suffixes" fileName D
            = Except.ok o2)
    (h3 : listAllBranch args.list_all D = Except.error e) :
    mainWithArgs fs args = RunOutcome.aborted (out0 ++ o1 ++ o2) e := by
  simp [mainWithArgs, hread, h1, h2, h3]

theorem mainWithArgs_congr (fs gs : String → FileContent) (args : Args)
    (h : fs (computedPath args) = gs (computedPath args)) :
    mainWithArgs fs args = mainWithArgs gs args := by
  unfold mainWithArgs readInDictionary
  rw [h]

theorem lookupBranch_true_result (value : String) (hv : value ≠ "")
    (kind sectionKey : String) (dict : Dict) (entries : DictSection)
    (hsec : dict.lookup sectionKey = some entries) :
    lookupBranch (truthy (some value)) (some value) kind sectionKey fileName dict =
      Except.ok [lookupResultMsg entries kind value] := by
  cases hkey : entries.lookup value with
  | some expl =>
    rw [lookupBranch_found value hv kind sectionKey fileName dict entries expl hsec hkey]
    simp [lookupResultMsg, hkey]
  | none =>
    rw [lookupBranch_not_found value hv kind sectionKey fileName dict entries hsec hkey]
    simp [lookupResultMsg, hkey]

theorem listAllBranch_exists_ok (flag : Bool) (dict : Dict) (ps ss : DictSection)
    (hps : dict.lookup "Prefixes" = some ps) (hss : dict.lookup "Suffixes" = some ss) :
    ∃ out, listAllBranch flag dict = Except.ok out := by
  cases flag with
  | false => exact ⟨[], rfl⟩
  | true =>
    exact ⟨[Msg.listing (prefixSectionHeader ++ entriesText ps ++ suffixSectionHeader
      ++ entriesText ss)], listAllBranch_ok dict ps ss hps hss⟩

theorem mainWithArgs_no_usage (fs : String → FileContent) (args : Args) :
    Msg.unsupportedUsage ∉ outputOf (mainWithArgs fs args) := by
  cases hread : readInDictionary fs (computedPath args) with
  | error e => simp [mainWithArgs, hread, outputOf]
  | ok pr =>
    obtain ⟨out0, D⟩ := pr
    have h0 := readInDictionary_no_usage fs (computedPath args) out0 D hread
    cases h1 : lookupBranch (truthy args.prefixArg) args.prefixArg "prefix" "Prefixes"
        fileName D with
    | error e =>
      simp [mainWithArgs, hread, h1, outputOf]
      exact h0
    | ok o1 =>
      have m1 := lookupBranch_no_usage _ _ _ _ _ _ _ h1
      cases h2 : lookupBranch (truthy args.suffixArg) args.suffixArg "suffix" "Suffixes"
          fileName D with
      | error e =>
        simp [mainWithArgs, hread, h1, h2, outputOf, List.mem_append]
        exact ⟨h0, m1⟩
      | ok o2 =>
        have m2 := lookupBranch_no_usage _ _ _ _ _ _ _ h2
        cases h3 : listAllBranch args.list_all D with
        | error e =>
          simp [mainWithArgs, hread, h1, h2, h3, outputOf, List.mem_append]
          exact ⟨h0, m1, m2⟩
        | ok o3 =>
          have m3 := listAllBranch_no_usage _ _ _ h3
          simp [mainWithArgs, hread, h1, h2, h3, outputOf, List.mem_append]
          exact ⟨h0, m1, m2, m3⟩

/-- C4: if the dictionary file opens but its content is empty or not
parseable as JSON, the loader prints an informational message and returns
the built-in default dictionary, which contains at least the prefixes
aref_ and mmu_ and the suffixes _req and _ctrl with their documented
explanations, and the run continues (it still performs the requested
branches and terminates normally, never aborting). -/
theorem c4_empty_file_default_dictionary (fs : String → FileContent) (args : Args)
    (hfs : fs (computedPath args) = FileContent.present none) :
    readInDictionary fs (computedPath args) =
      Except.ok ([Msg.fileReadAttempt (computedPath args),
                  Msg.fileEmpty (computedPath args)], defaultDictionary) ∧
    render (Msg.fileEmpty (computedPath args)) = fileEmptyMsg (computedPath args) ∧
    (∃ pre, defaultDictionary.lookup "Prefixes" = some pre ∧
       ("aref_", "Indicates that the signal is to do with the auto-refresh logic.") ∈ pre ∧
       ("mmu_", "Indicates that the signal is coming from the memory-management unit.") ∈ pre) ∧
    (∃ suf, defaultDictionary.lookup "Suffixes" = some suf ∧
       ("_req", "Indicates a request line.") ∈ suf ∧
       ("_ctrl", "Indicates a control signal or a signal from a control block.") ∈ suf) ∧
    (∃ rest, mainWithArgs fs args =
       RunOutcome.normal (Msg.fileReadAttempt (computedPath args) ::
         Msg.fileEmpty (computedPath args) :: rest)) := by
  have hread := readInDictionary_failedParse fs (computedPath args) hfs
  refine ⟨hread, rfl, ?_, ?_, ?_⟩
  · exact ⟨_, rfl, by simp, by simp⟩
  · exact ⟨_, rfl, by simp, by simp⟩
  · have hdP : defaultDictionary.lookup "Prefixes" =
        some [("aref_", "Indicates that the signal is to do with the auto-refresh logic."),
              ("mmu_", "Indicates that the signal is coming from the memory-management unit.")] :=
      rfl
    have hdS : defaultDictionary.lookup "Suffixes" =
        some [("_req", "Indicates a request line."),
              ("_ctrl", "Indicates a control signal or a signal from a control block.")] :=
      rfl
    obtain ⟨o1, ho1⟩ := lookupBranch_exists_ok (truthy args.prefixArg) args.prefixArg
      "prefix" "Prefixes" fileName defaultDictionary _ hdP
    obtain ⟨o2, ho2⟩ := lookupBranch_exists_ok (truthy args.suffixArg) args.suffixArg
      "suffix" "Suffixes" fileName defaultDictionary _ hdS
    obtain ⟨o3, ho3⟩ := listAllBranch_exists_ok args.list_all defaultDictionary _ _ hdP hdS
    refine ⟨o1 ++ (o2 ++ o3), ?_⟩
    have := mainWithArgs_eq fs args _ defaultDictionary o1 o2 o3 hread ho1 ho2 ho3
    rw [this]
    simp

/-- C4 witness: an empty dictionary file together with a prefix lookup of
aref_ exercises the default-dictionary fallback. -/
theorem c4_witness :
    (fun _ : String => FileContent.present none)
        (computedPath (Args.mk (some "aref_") none false none)) =
      FileContent.present none ∧
    (∃ rest, mainWithArgs (fun _ => FileContent.present none)
        (Args.mk (some "aref_") none false none) =
      RunOutcome.normal
        (Msg.fileReadAttempt (computedPath (Args.mk (some "aref_") none false none)) ::
         Msg.fileEmpty (computedPath (Args.mk (some "aref_") none false none)) :: rest)) :=
  ⟨rfl, (c4_empty_file_default_dictionary (fun _ => FileContent.present none)
    (Args.mk (some "aref_") none false none) rfl).2.2.2.2⟩

/-- C5: if the dictionary file does not exist at the computed path, the
open fails and the file-access error propagates uncaught: the run aborts,
nothing is printed (so the default dictionary is not substituted and no
lookup or listing output is produced), and the process exit code is
nonzero. -/
theorem c5_missing_file_aborts (fs : String → FileContent) (args : Args)
    (habs : fs (computedPath args) = FileContent.absent) :
    mainWithArgs fs args =
      RunOutcome.aborted [] (RunError.fileNotFound (computedPath args)) ∧
    outputOf (mainWithArgs fs args) = [] ∧
    exitCode (mainWithArgs fs args) = 1 := by
  have h := mainWithArgs_abort_read fs args (RunError.fileNotFound (computedPath args))
    (readInDictionary_absent fs (computedPath args) habs)
  exact ⟨h, by rw [h]; rfl, by rw [h]; rfl⟩

/-- C5 witness: a file system with no dictionary file anywhere makes the
run abort before producing any output. -/
theorem c5_witness :
    (fun _ : String => FileContent.absent)
        (computedPath (Args.mk (some "aref_") none true none)) = FileContent.absent ∧
    mainWithArgs (fun _ => FileContent.absent) (Args.mk (some "aref_") none true none) =
      RunOutcome.aborted []
        (RunError.fileNotFound (computedPath (Args.mk (some "aref_") none true none))) :=
  ⟨rfl, (c5_missing_file_aborts (fun _ => FileContent.absent)
    (Args.mk (some "aref_") none true none) rfl).1⟩

/-- C6: invoking the program with zero command-line arguments prints the
no-arguments error message and exits immediately with exit code 0; the
result does not depend on the file system at all (no dictionary read) and
the output holds nothing besides the no-arguments message (no lookup, no
listing). -/
theorem c6_no_args (fs : String → FileContent) :
    runMain fs [] = RunOutcome.normal [Msg.noArgs] ∧
    exitCode (runMain fs []) = 0 ∧
    render Msg.noArgs = noArgsMsg ∧
    (∀ gs : String → FileContent, runMain fs [] = runMain gs []) :=
  ⟨rfl, rfl, rfl, fun _ => rfl⟩

/-- C6 witness: the no-arguments run on a file system that would fail any
open still prints the no-arguments message and exits with code 0. -/
theorem c6_witness :
    runMain (fun _ => FileContent.absent) [] = RunOutcome.normal [Msg.noArgs] ∧
    exitCode (runMain (fun _ => FileContent.absent) []) = 0 :=
  ⟨(c6_no_args (fun _ => FileContent.absent)).1,
   (c6_no_args (fun _ => FileContent.absent)).2.1⟩

/-- C1 counterexample: the empty string is a legal JSON key; with a
dictionary whose Prefixes section stores the key "" and the run invoked
with that key as the prefix value, the truthiness test on the switch
value fails, so no lookup runs and no explanation line is printed,
refuting the claim for that stored key. -/
theorem c1_counterexample :
    ("", "x") ∈ ([("", "x")] : DictSection) ∧
    (([("Prefixes", [("", "x")]), ("Suffixes", [])] : Dict).lookup "Prefixes"
       = some [("", "x")]) ∧
    mainWithArgs
      (fun p => if p = "./rtl_dictionary.json"
        then FileContent.present (some [("Prefixes", [("", "x")]), ("Suffixes", [])])
        else FileContent.absent)
      (Args.mk (some "") none false none) =
      RunOutcome.normal [Msg.fileReadAttempt "./rtl_dictionary.json"] ∧
    Msg.explanation "" "x" ∉
      outputOf (mainWithArgs
        (fun p => if p = "./rtl_dictionary.json"
          then FileContent.present (some [("Prefixes", [("", "x")]), ("Suffixes", [])])
          else FileContent.absent)
        (Args.mk (some "") none false none)) := by
  decide

/-- C1 (amended): for every dictionary D and every nonempty key k present
in D.Prefixes, running with the prefix switch set to k prints exactly the
read-attempt message followed by the line "k: D.Prefixes[k]"; the
symmetric property holds, independently, for a nonempty suffix key
against D.Suffixes - each half assumes nothing about the other section. -/
theorem c1_found_key_prints_explanation :
    (∀ (fs : String → FileContent) (D : Dict) (ps : DictSection) (k kexpl : String),
        fs "./rtl_dictionary.json" = FileContent.present (some D) →
        D.lookup "Prefixes" = some ps →
        k ≠ "" → ps.lookup k = some kexpl →
        mainWithArgs fs (Args.mk (some k) none false none) =
          RunOutcome.normal [Msg.fileReadAttempt "./rtl_dictionary.json",
            Msg.explanation k kexpl] ∧
        render (Msg.explanation k kexpl) = k ++ ": " ++ kexpl) ∧
    (∀ (fs : String → FileContent) (D : Dict) (ss : DictSection) (l lexpl : String),
        fs "./rtl_dictionary.json" = FileContent.present (some D) →
        D.lookup "Suffixes" = some ss →
        l ≠ "" → ss.lookup l = some lexpl →
        mainWithArgs fs (Args.mk none (some l) false none) =
          RunOutcome.normal [Msg.fileReadAttempt "./rtl_dictionary.json",
            Msg.explanation l lexpl] ∧
        render (Msg.explanation l lexpl) = l ++ ": " ++ lexpl) := by
  constructor
  · intro fs D ps k kexpl hfs hps hk hkv
    refine ⟨?_, rfl⟩
    have hread : readInDictionary fs (computedPath (Args.mk (some k) none false none)) =
        Except.ok ([Msg.fileReadAttempt "./rtl_dictionary.json"], D) :=
      readInDictionary_parsed fs _ D hfs
    have := mainWithArgs_eq fs (Args.mk (some k) none false none) _ D
      [Msg.explanation k kexpl] [] [] hread
      (lookupBranch_found k hk "prefix" "Prefixes" fileName D ps kexpl hps hkv)
      (lookupBranch_false none "suffix" "Suffixes" fileName D)
      (listAllBranch_false D)
    rw [this]
    simp
  · intro fs D ss l lexpl hfs hss hl hlv
    refine ⟨?_, rfl⟩
    have hread : readInDictionary fs (computedPath (Args.mk none (some l) false none)) =
        Except.ok ([Msg.fileReadAttempt "./rtl_dictionary.json"], D) :=
      readInDictionary_parsed fs _ D hfs
    have := mainWithArgs_eq fs (Args.mk none (some l) false none) _ D
      [] [Msg.explanation l lexpl] [] hread
      (lookupBranch_false none "prefix" "Prefixes" fileName D)
      (lookupBranch_found l hl "suffix" "Suffixes" fileName D ss lexpl hss hlv)
      (listAllBranch_false D)
    rw [this]
    simp

/-- C1 witness: a dictionary whose Suffixes section is empty still has
its stored prefix looked up and printed - the prefix half needs no
suffix-side assumption. -/
theorem c1_witness :
    mainWithArgs
      (fun p => if p = "./rtl_dictionary.json"
        then FileContent.present (some [("Prefixes", [("a", "x")]), ("Suffixes", [])])
        else FileContent.absent)
      (Args.mk (some "a") none false none) =
      RunOutcome.normal [Msg.fileReadAttempt "./rtl_dictionary.json",
        Msg.explanation "a" "x"] :=
  (c1_found_key_prints_explanation.1
    (fun p => if p = "./rtl_dictionary.json"
      then FileContent.present (some [("Prefixes", [("a", "x")]), ("Suffixes", [])])
      else FileContent.absent)
    [("Prefixes", [("a", "x")]), ("Suffixes", [])]
    [("a", "x")] "a" "x"
    (by decide) (by decide) (by decide) (by decide)).1

/-- C2 counterexample: the empty string differs from every stored key of
the Prefixes section, yet running with the prefix switch set to "" prints
no not-found message: the truthiness test on the switch value skips the
whole branch, refuting the claim for that searched value. -/
theorem c2_counterexample :
    (([("aref_", "A")] : DictSection).lookup "" = none) ∧
    mainWithArgs
      (fun p => if p = "./rtl_dictionary.json"
        then FileContent.present (some [("Prefixes", [("aref_", "A")]), ("Suffixes", [])])
        else FileContent.absent)
      (Args.mk (some "") none false none) =
      RunOutcome.normal [Msg.fileReadAttempt "./rtl_dictionary.json"] ∧
    Msg.notFound "prefix" "" fileName ∉
      outputOf (mainWithArgs
        (fun p => if p = "./rtl_dictionary.json"
          then FileContent.present (some [("Prefixes", [("aref_", "A")]), ("Suffixes", [])])
          else FileContent.absent)
        (Args.mk (some "") none false none)) := by
  decide

/-- C2 (amended): for every dictionary D and every nonempty string k not
present in D.Prefixes, running with the prefix switch set to k prints the
not-found message naming the kind "prefix", the searched value k and the
dictionary file name; the match is exact, with no normalization; the
symmetric property holds for a nonempty suffix value against D.Suffixes. -/
theorem c2_not_found_message (fs : String → FileContent) (D : Dict)
    (ps ss : DictSection) (k l : String)
    (hfs : fs "./rtl_dictionary.json" = FileContent.present (some D))
    (hps : D.lookup "Prefixes" = some ps) (hss : D.lookup "Suffixes" = some ss)
    (hk : k ≠ "") (hkv : ps.lookup k = none)
    (hl : l ≠ "") (hlv : ss.lookup l = none) :
    mainWithArgs fs (Args.mk (some k) none false none) =
      RunOutcome.normal [Msg.fileReadAttempt "./rtl_dictionary.json",
        Msg.notFound "prefix" k fileName] ∧
    mainWithArgs fs (Args.mk none (some l) false none) =
      RunOutcome.normal [Msg.fileReadAttempt "./rtl_dictionary.json",
        Msg.notFound "suffix" l fileName] ∧
    render (Msg.notFound "prefix" k fileName) =
      infoTag ++ "The " ++ "prefix" ++ " " ++ k ++ " could not be found in " ++ fileName ∧
    render (Msg.notFound "suffix" l fileName) =
      infoTag ++ "The " ++ "suffix" ++ " " ++ l ++ " could not be found in " ++ fileName := by
  refine ⟨?_, ?_, rfl, rfl⟩
  · have hread : readInDictionary fs (computedPath (Args.mk (some k) none false none)) =
        Except.ok ([Msg.fileReadAttempt "./rtl_dictionary.json"], D) :=
      readInDictionary_parsed fs _ D hfs
    have := mainWithArgs_eq fs (Args.mk (some k) none false none) _ D
      [Msg.notFound "prefix" k fileName] [] [] hread
      (lookupBranch_not_found k hk "prefix" "Prefixes" fileName D ps hps hkv)
      (lookupBranch_false none "suffix" "Suffixes" fileName D)
      (listAllBranch_false D)
    rw [this]
    simp
  · have hread : readInDictionary fs (computedPath (Args.mk none (some l) false none)) =
        Except.ok ([Msg.fileReadAttempt "./rtl_dictionary.json"], D) :=
      readInDictionary_parsed fs _ D hfs
    have := mainWithArgs_eq fs (Args.mk none (some l) false none) _ D
      [] [Msg.notFound "suffix" l fileName] [] hread
      (lookupBranch_false none "prefix" "Prefixes" fileName D)
      (lookupBranch_not_found l hl "suffix" "Suffixes" fileName D ss hss hlv)
      (listAllBranch_false D)
    rw [this]
    simp

/-- C2 witness: looking up keys that are stored nowhere (including a key
differing from a stored one only by case) prints the not-found message. -/
theorem c2_witness :
    mainWithArgs
      (fun p => if p = "./rtl_dictionary.json"
        then FileContent.present (some defaultDictionary) else FileContent.absent)
      (Args.mk (some "AREF_") none false none) =
      RunOutcome.normal [Msg.fileReadAttempt "./rtl_dictionary.json",
        Msg.notFound "prefix" "AREF_" fileName] :=
  (c2_not_found_message
    (fun p => if p = "./rtl_dictionary.json"
      then FileContent.present (some defaultDictionary) else FileContent.absent)
    defaultDictionary
    [("aref_", "Indicates that the signal is to do with the auto-refresh logic."),
     ("mmu_", "Indicates that the signal is coming from the memory-management unit.")]
    [("_req", "Indicates a request line."),
     ("_ctrl", "Indicates a control signal or a signal from a control block.")]
    "AREF_" "_ack"
    (by decide) (by decide) (by decide) (by decide) (by decide) (by decide) (by decide)).1

/-- C3: with the list-all flag set, the run prints the read-attempt
message and then one single combined string: the Prefixes header, every
prefix entry rendered as "key: explanation" in dictionary order, the
Suffixes header, then every suffix entry likewise; under the Python-dict
guarantee that keys are unique within a section, every key of both
sections appears exactly once, and all prefixes precede all suffixes in
the combined string by construction. -/
theorem c3_list_all_output (fs : String → FileContent) (D : Dict) (ps ss : DictSection)
    (hfs : fs "./rtl_dictionary.json" = FileContent.present (some D))
    (hps : D.lookup "Prefixes" = some ps) (hss : D.lookup "Suffixes" = some ss)
    (hnp : (ps.map Prod.fst).Nodup) (hns : (ss.map Prod.fst).Nodup) :
    mainWithArgs fs (Args.mk none none true none) =
      RunOutcome.normal [Msg.fileReadAttempt "./rtl_dictionary.json",
        Msg.listing (prefixSectionHeader ++ entriesText ps ++ suffixSectionHeader
          ++ entriesText ss)] ∧
    (∀ key ∈ ps.map Prod.fst, List.count key (ps.map Prod.fst) = 1) ∧
    (∀ key ∈ ss.map Prod.fst, List.count key (ss.map Prod.fst) = 1) := by
  refine ⟨?_, ?_, ?_⟩
  · have hread : readInDictionary fs (computedPath (Args.mk none none true none)) =
        Except.ok ([Msg.fileReadAttempt "./rtl_dictionary.json"], D) :=
      readInDictionary_parsed fs _ D hfs
    have := mainWithArgs_eq fs (Args.mk none none true none) _ D
      [] []
      [Msg.listing (prefixSectionHeader ++ entriesText ps ++ suffixSectionHeader
        ++ entriesText ss)]
      hread
      (lookupBranch_false none "prefix" "Prefixes" fileName D)
      (lookupBranch_false none "suffix" "Suffixes" fileName D)
      (listAllBranch_ok D ps ss hps hss)
    rw [this]
    simp
  · intro key hmem
    exact List.count_eq_one_of_mem hnp hmem
  · intro key hmem
    exact List.count_eq_one_of_mem hns hmem

/-- C3 witness: listing the default dictionary content. -/
theorem c3_witness :
    mainWithArgs
      (fun p => if p = "./rtl_dictionary.json"
        then FileContent.present (some defaultDictionary) else FileContent.absent)
      (Args.mk none none true none) =
      RunOutcome.normal [Msg.fileReadAttempt "./rtl_dictionary.json",
        Msg.listing (prefixSectionHeader
          ++ entriesText
            [("aref_", "Indicates that the signal is to do with the auto-refresh logic."),
             ("mmu_", "Indicates that the signal is coming from the memory-management unit.")]
          ++ suffixSectionHeader
          ++ entriesText
            [("_req", "Indicates a request line."),
             ("_ctrl", "Indicates a control signal or a signal from a control block.")])] :=
  (c3_list_all_output
    (fun p => if p = "./rtl_dictionary.json"
      then FileContent.present (some defaultDictionary) else FileContent.absent)
    defaultDictionary
    [("aref_", "Indicates that the signal is to do with the auto-refresh logic."),
     ("mmu_", "Indicates that the signal is coming from the memory-management unit.")]
    [("_req", "Indicates a request line."),
     ("_ctrl", "Indicates a control signal or a signal from a control block.")]
    (by decide) (by decide) (by decide) (by decide) (by decide)).1

/-- C7 counterexample: with the path switch supplied as the empty string,
the claim predicts the path "" ++ fileName = "rtl_dictionary.json"; but
the truthiness test treats the empty value as absent, so the run reads
"./rtl_dictionary.json" instead - here the claimed path holds no file at
all, yet the run completes normally. -/
theorem c7_counterexample :
    mainWithArgs
      (fun p => if p = "./rtl_dictionary.json"
        then FileContent.present (some defaultDictionary) else FileContent.absent)
      (Args.mk none none false (some "")) =
      RunOutcome.normal [Msg.fileReadAttempt "./rtl_dictionary.json"] ∧
    (fun p => if p = "./rtl_dictionary.json"
        then FileContent.present (some defaultDictionary) else FileContent.absent)
      ("" ++ fileName) = FileContent.absent ∧
    computedPath (Args.mk none none false (some "")) ≠ "" ++ fileName := by
  decide

/-- C7 (amended): the dictionary path is the value of the path switch
concatenated directly with the fixed file name when that value is
nonempty; when the switch is absent or its value is empty, the path is
"./" joined with the file name; and the run consults the file system only
at that computed path. -/
theorem c7_path_concatenation :
    (∀ s : String, s ≠ "" → ∀ (a b : Option String) (c : Bool),
        computedPath (Args.mk a b c (some s)) = s ++ fileName) ∧
    (∀ (a b : Option String) (c : Bool),
        computedPath (Args.mk a b c none) = "./" ++ fileName) ∧
    (∀ (a b : Option String) (c : Bool),
        computedPath (Args.mk a b c (some "")) = "./" ++ fileName) ∧
    fileName = "rtl_dictionary.json" ∧
    (∀ (fs gs : String → FileContent) (args : Args),
        fs (computedPath args) = gs (computedPath args) →
        mainWithArgs fs args = mainWithArgs gs args) := by
  refine ⟨?_, ?_, ?_, rfl, mainWithArgs_congr⟩
  · intro s hs a b c
    simp [computedPath, truthy, hs]
  · intro a b c
    rfl
  · intro a b c
    rfl

/-- C7 witness: a caller-supplied directory ending in a separator is
concatenated directly with the fixed file name. -/
theorem c7_witness :
    "/tmp/" ≠ "" ∧
    computedPath (Args.mk none none false (some "/tmp/")) = "/tmp/" ++ fileName :=
  ⟨by decide, c7_path_concatenation.1 "/tmp/" (by decide) none none false⟩

set_option maxRecDepth 16384 in
/-- C8 counterexample: all three switches supplied together as
--prefix '' --suffix '' --list_all against a dictionary holding the keys
"a" and "b": the truthiness tests skip both lookups, so the run prints
only the read-attempt message and the listing - neither an explanation
nor a not-found message for either section - refuting the claim that all
three operations execute whenever all three switches are supplied. -/
theorem c8_counterexample :
    mainWithArgs
      (fun p => if p = "./rtl_dictionary.json"
        then FileContent.present
          (some [("Prefixes", [("a", "x")]), ("Suffixes", [("b", "y")])])
        else FileContent.absent)
      (Args.mk (some "") (some "") true none) =
      RunOutcome.normal [Msg.fileReadAttempt "./rtl_dictionary.json",
        Msg.listing (prefixSectionHeader ++ entriesText [("a", "x")]
          ++ suffixSectionHeader ++ entriesText [("b", "y")])] ∧
    Msg.notFound "prefix" "" fileName ∉ outputOf (mainWithArgs
      (fun p => if p = "./rtl_dictionary.json"
        then FileContent.present
          (some [("Prefixes", [("a", "x")]), ("Suffixes", [("b", "y")])])
        else FileContent.absent)
      (Args.mk (some "") (some "") true none)) ∧
    Msg.notFound "suffix" "" fileName ∉ outputOf (mainWithArgs
      (fun p => if p = "./rtl_dictionary.json"
        then FileContent.present
          (some [("Prefixes", [("a", "x")]), ("Suffixes", [("b", "y")])])
        else FileContent.absent)
      (Args.mk (some "") (some "") true none)) ∧
    Msg.explanation "a" "x" ∉ outputOf (mainWithArgs
      (fun p => if p = "./rtl_dictionary.json"
        then FileContent.present
          (some [("Prefixes", [("a", "x")]), ("Suffixes", [("b", "y")])])
        else FileContent.absent)
      (Args.mk (some "") (some "") true none)) ∧
    Msg.explanation "b" "y" ∉ outputOf (mainWithArgs
      (fun p => if p = "./rtl_dictionary.json"
        then FileContent.present
          (some [("Prefixes", [("a", "x")]), ("Suffixes", [("b", "y")])])
        else FileContent.absent)
      (Args.mk (some "") (some "") true none)) := by
  decide

/-- C8 (amended): the mutual-exclusivity message is never printed on any
invocation; when the prefix, suffix and list-all switches are all
supplied with NONEMPTY lookup values, all three operations run in that
same invocation, in that order, against the same loaded dictionary;
when a supplied lookup value is the empty string, the truthiness test
skips that lookup while the listing still runs. -/
theorem c8_no_exclusivity_all_branches :
    (∀ (fs : String → FileContent) (argv : List String),
        Msg.unsupportedUsage ∉ outputOf (runMain fs argv)) ∧
    (∀ (fs : String → FileContent) (D : Dict) (ps ss : DictSection) (k l : String),
        fs "./rtl_dictionary.json" = FileContent.present (some D) →
        D.lookup "Prefixes" = some ps → D.lookup "Suffixes" = some ss →
        k ≠ "" → l ≠ "" →
        mainWithArgs fs (Args.mk (some k) (some l) true none) =
          RunOutcome.normal
            ([Msg.fileReadAttempt "./rtl_dictionary.json"] ++
             [lookupResultMsg ps "prefix" k] ++
             [lookupResultMsg ss "suffix" l] ++
             [Msg.listing (prefixSectionHeader ++ entriesText ps ++ suffixSectionHeader
               ++ entriesText ss)])) ∧
    (∀ (fs : String → FileContent) (D : Dict) (ps ss : DictSection),
        fs "./rtl_dictionary.json" = FileContent.present (some D) →
        D.lookup "Prefixes" = some ps → D.lookup "Suffixes" = some ss →
        mainWithArgs fs (Args.mk (some "") (some "") true none) =
          RunOutcome.normal [Msg.fileReadAttempt "./rtl_dictionary.json",
            Msg.listing (prefixSectionHeader ++ entriesText ps ++ suffixSectionHeader
              ++ entriesText ss)]) := by
  refine ⟨?_, ?_, ?_⟩
  · intro fs argv
    by_cases hempty : argv.isEmpty
    · simp [runMain, hempty, outputOf]
    · cases hparse : parsingArguments argv with
      | none => simp [runMain, hempty, hparse, outputOf]
      | some args =>
        have : runMain fs argv = mainWithArgs fs args := by
          simp [runMain, hempty, hparse]
        rw [this]
        exact mainWithArgs_no_usage fs args
  · intro fs D ps ss k l hfs hps hss hk hl
    have hread : readInDictionary fs (computedPath (Args.mk (some k) (some l) true none)) =
        Except.ok ([Msg.fileReadAttempt "./rtl_dictionary.json"], D) :=
      readInDictionary_parsed fs _ D hfs
    exact mainWithArgs_eq fs (Args.mk (some k) (some l) true none) _ D
      [lookupResultMsg ps "prefix" k] [lookupResultMsg ss "suffix" l]
      [Msg.listing (prefixSectionHeader ++ entriesText ps ++ suffixSectionHeader
        ++ entriesText ss)]
      hread
      (lookupBranch_true_result k hk "prefix" "Prefixes" D ps hps)
      (lookupBranch_true_result l hl "suffix" "Suffixes" D ss hss)
      (listAllBranch_ok D ps ss hps hss)
  · intro fs D ps ss hfs hps hss
    have hread : readInDictionary fs
        (computedPath (Args.mk (some "") (some "") true none)) =
        Except.ok ([Msg.fileReadAttempt "./rtl_dictionary.json"], D) :=
      readInDictionary_parsed fs _ D hfs
    have := mainWithArgs_eq fs (Args.mk (some "") (some "") true none) _ D [] []
      [Msg.listing (prefixSectionHeader ++ entriesText ps ++ suffixSectionHeader
        ++ entriesText ss)]
      hread
      (lookupBranch_false (some "") "prefix" "Prefixes" fileName D)
      (lookupBranch_false (some "") "suffix" "Suffixes" fileName D)
      (listAllBranch_ok D ps ss hps hss)
    rw [this]
    simp

/-- C8 witness: all three switches in one run against the default
dictionary content; the mutual-exclusivity message does not appear. -/
theorem c8_witness :
    Msg.unsupportedUsage ∉ outputOf (runMain
      (fun p => if p = "./rtl_dictionary.json"
        then FileContent.present (some defaultDictionary) else FileContent.absent)
      ["--prefix", "aref_", "--suffix", "_ack", "--list_all"]) ∧
    mainWithArgs
      (fun p => if p = "./rtl_dictionary.json"
        then FileContent.present (some defaultDictionary) else FileContent.absent)
      (Args.mk (some "aref_") (some "_ack") true none) =
      RunOutcome.normal
        ([Msg.fileReadAttempt "./rtl_dictionary.json"] ++
         [lookupResultMsg
           [("aref_", "Indicates that the signal is to do with the auto-refresh logic."),
            ("mmu_", "Indicates that the signal is coming from the memory-management unit.")]
           "prefix" "aref_"] ++
         [lookupResultMsg
           [("_req", "Indicates a request line."),
            ("_ctrl", "Indicates a control signal or a signal from a control block.")]
           "suffix" "_ack"] ++
         [Msg.listing (prefixSectionHeader
           ++ entriesText
             [("aref_", "Indicates that the signal is to do with the auto-refresh logic."),
              ("mmu_", "Indicates that the signal is coming from the memory-management unit.")]
           ++ suffixSectionHeader
           ++ entriesText
             [("_req", "Indicates a request line."),
              ("_ctrl", "Indicates a control signal or a signal from a control block.")])]) :=
  ⟨c8_no_exclusivity_all_branches.1
     (fun p => if p = "./rtl_dictionary.json"
       then FileContent.present (some defaultDictionary) else FileContent.absent)
     ["--prefix", "aref_", "--suffix", "_ack", "--list_all"],
   c8_no_exclusivity_all_branches.2.1
     (fun p => if p = "./rtl_dictionary.json"
       then FileContent.present (some defaultDictionary) else FileContent.absent)
     defaultDictionary
     [("aref_", "Indicates that the signal is to do with the auto-refresh logic."),
      ("mmu_", "Indicates that the signal is coming from the memory-management unit.")]
     [("_req", "Indicates a request line."),
      ("_ctrl", "Indicates a control signal or a signal from a control block.")]
     "aref_" "_ack"
     (by decide) (by decide) (by decide) (by decide) (by decide)⟩

/-- C9: valid JSON lacking a top-level section key is returned unchanged
by the loader (the default-dictionary fallback fires only on parse
failure), and a subsequently requested prefix lookup, suffix lookup or
listing that indexes the missing section aborts the run with an uncaught
key error, after only the read-attempt message was printed. -/
theorem c9_missing_section_key_error :
    (∀ (fs : String → FileContent) (p : String) (D : Dict),
        fs p = FileContent.present (some D) →
        readInDictionary fs p = Except.ok ([Msg.fileReadAttempt p], D)) ∧
    (∀ (fs : String → FileContent) (D : Dict) (k : String),
        fs "./rtl_dictionary.json" = FileContent.present (some D) →
        D.lookup "Prefixes" = none → k ≠ "" →
        mainWithArgs fs (Args.mk (some k) none false none) =
          RunOutcome.aborted [Msg.fileReadAttempt "./rtl_dictionary.json"]
            (RunError.keyError "Prefixes")) ∧
    (∀ (fs : String → FileContent) (D : Dict) (l : String),
        fs "./rtl_dictionary.json" = FileContent.present (some D) →
        D.lookup "Suffixes" = none → l ≠ "" →
        mainWithArgs fs (Args.mk none (some l) false none) =
          RunOutcome.aborted [Msg.fileReadAttempt "./rtl_dictionary.json"]
            (RunError.keyError "Suffixes")) ∧
    (∀ (fs : String → FileContent) (D : Dict),
        fs "./rtl_dictionary.json" = FileContent.present (some D) →
        D.lookup "Prefixes" = none →
        mainWithArgs fs (Args.mk none none true none) =
          RunOutcome.aborted [Msg.fileReadAttempt "./rtl_dictionary.json"]
            (RunError.keyError "Prefixes")) ∧
    (∀ (fs : String → FileContent) (D : Dict) (ps : DictSection),
        fs "./rtl_dictionary.json" = FileContent.present (some D) →
        D.lookup "Prefixes" = some ps → D.lookup "Suffixes" = none →
        mainWithArgs fs (Args.mk none none true none) =
          RunOutcome.aborted [Msg.fileReadAttempt "./rtl_dictionary.json"]
            (RunError.keyError "Suffixes")) := by
  refine ⟨fun fs p D h => readInDictionary_parsed fs p D h, ?_, ?_, ?_, ?_⟩
  · intro fs D k hfs hP hk
    have hread : readInDictionary fs (computedPath (Args.mk (some k) none false none)) =
        Except.ok ([Msg.fileReadAttempt "./rtl_dictionary.json"], D) :=
      readInDictionary_parsed fs _ D hfs
    exact mainWithArgs_abort1 fs (Args.mk (some k) none false none) _ D _ hread
      (lookupBranch_missing k hk "prefix" "Prefixes" fileName D hP)
  · intro fs D l hfs hS hl
    have hread : readInDictionary fs (computedPath (Args.mk none (some l) false none)) =
        Except.ok ([Msg.fileReadAttempt "./rtl_dictionary.json"], D) :=
      readInDictionary_parsed fs _ D hfs
    have := mainWithArgs_abort2 fs (Args.mk none (some l) false none) _ D [] _ hread
      (lookupBranch_false none "prefix" "Prefixes" fileName D)
      (lookupBranch_missing l hl "suffix" "Suffixes" fileName D hS)
    rw [this]
    simp
  · intro fs D hfs hP
    have hread : readInDictionary fs (computedPath (Args.mk none none true none)) =
        Except.ok ([Msg.fileReadAttempt "./rtl_dictionary.json"], D) :=
      readInDictionary_parsed fs _ D hfs
    have := mainWithArgs_abort3 fs (Args.mk none none true none) _ D [] [] _ hread
      (lookupBranch_false none "prefix" "Prefixes" fileName D)
      (lookupBranch_false none "suffix" "Suffixes" fileName D)
      (listAllBranch_missingP D hP)
    rw [this]
    simp
  · intro fs D ps hfs hP hS
    have hread : readInDictionary fs (computedPath (Args.mk none none true none)) =
        Except.ok ([Msg.fileReadAttempt "./rtl_dictionary.json"], D) :=
      readInDictionary_parsed fs _ D hfs
    have := mainWithArgs_abort3 fs (Args.mk none none true none) _ D [] [] _ hread
      (lookupBranch_false none "prefix" "Prefixes" fileName D)
      (lookupBranch_false none "suffix" "Suffixes" fileName D)
      (listAllBranch_missingS D ps hP hS)
    rw [this]
    simp

/-- C9 witness: a JSON object with neither expected section, indexed by a
prefix lookup, aborts with the key error after the read-attempt print. -/
theorem c9_witness :
    mainWithArgs
      (fun p => if p = "./rtl_dictionary.json"
        then FileContent.present (some [("Other", [])]) else FileContent.absent)
      (Args.mk (some "aref_") none false none) =
      RunOutcome.aborted [Msg.fileReadAttempt "./rtl_dictionary.json"]
        (RunError.keyError "Prefixes") :=
  c9_missing_section_key_error.2.1
    (fun p => if p = "./rtl_dictionary.json"
      then FileContent.present (some [("Other", [])]) else FileContent.absent)
    [("Other", [])] "aref_" (by decide) (by decide) (by decide)

/-- C10: supplying the prefix, suffix or path switch with an empty-string
value behaves exactly as if the switch were absent; in particular with
all three empty and no list flag, a run against a parseable dictionary
prints only the read-attempt message for the default "./" directory - no
explanation, no not-found message, no listing. -/
theorem c10_empty_values_as_absent :
    (∀ (fs : String → FileContent) (b d : Option String) (c : Bool),
        mainWithArgs fs (Args.mk (some "") b c d) = mainWithArgs fs (Args.mk none b c d)) ∧
    (∀ (fs : String → FileContent) (a d : Option String) (c : Bool),
        mainWithArgs fs (Args.mk a (some "") c d) = mainWithArgs fs (Args.mk a none c d)) ∧
    (∀ (fs : String → FileContent) (a b : Option String) (c : Bool),
        mainWithArgs fs (Args.mk a b c (some "")) = mainWithArgs fs (Args.mk a b c none)) ∧
    (∀ (fs : String → FileContent) (D : Dict),
        fs "./rtl_dictionary.json" = FileContent.present (some D) →
        mainWithArgs fs (Args.mk (some "") (some "") false (some "")) =
          RunOutcome.normal [Msg.fileReadAttempt "./rtl_dictionary.json"]) := by
  refine ⟨fun fs b d c => rfl, fun fs a d c => rfl, fun fs a b c => rfl, ?_⟩
  intro fs D hfs
  have hread : readInDictionary fs
      (computedPath (Args.mk (some "") (some "") false (some ""))) =
      Except.ok ([Msg.fileReadAttempt "./rtl_dictionary.json"], D) :=
    readInDictionary_parsed fs _ D hfs
  have := mainWithArgs_eq fs (Args.mk (some "") (some "") false (some "")) _ D [] [] [] hread
    (lookupBranch_false (some "") "prefix" "Prefixes" fileName D)
    (lookupBranch_false (some "") "suffix" "Suffixes" fileName D)
    (listAllBranch_false D)
  rw [this]
  simp

/-- C10 witness: empty switch values against the default dictionary
content produce only the read-attempt message, from the "./" path. -/
theorem c10_witness :
    mainWithArgs
      (fun p => if p = "./rtl_dictionary.json"
        then FileContent.present (some defaultDictionary) else FileContent.absent)
      (Args.mk (some "") (some "") false (some "")) =
      RunOutcome.normal [Msg.fileReadAttempt "./rtl_dictionary.json"] :=
  c10_empty_values_as_absent.2.2.2
    (fun p => if p = "./rtl_dictionary.json"
      then FileContent.present (some defaultDictionary) else FileContent.absent)
    defaultDictionary (by decide)
